import Mathlib

/-!
Shallow embedding of the `robotsline` robotic-factory simulation
(`src/robotsline/models.py`, `handlers.py`, `commands.py`, `settings.py`,
`exceptions.py`).

Python's mutable object graph is rendered with value semantics: each
state-changing method returns the updated value instead of mutating in
place, and the back-references a state object keeps to its robot and to
the shared stock are threaded explicitly as arguments.  Python exceptions
become `Except` results; the one method that both mutates and raises
(`Idle.mine`) returns the mutated state paired with the raised error.
`Decimal` money is embedded as `ℚ` (both are exact).  Randomness
(`random.randint` for bar mining time, `random.random` for the assembly
roll, `uuid` for material identity) is passed in as explicit oracle
arguments.
-/

namespace Robotsline

/-- `exceptions.py`: the recoverable domain errors.  `GameOver` is a
separate class (not a `DomainError`) and is never raised by any code in
`models.py`, so it has no inhabitant here. -/
inductive DomainError where
  | invalidTransition
  | notEnoughMaterial
  | unknownLocation
  | unknownMaterial
deriving DecidableEq, Repr

/-- `models.Location`: where robots can go. -/
inductive Location where
  | cafeteria
  | onMyWay
  | fooMine
  | barMine
  | assemblyLine
  | materialStore
  | robotsStore
deriving DecidableEq, Repr

/-- Python's `str.lower()` (character-wise lowering). -/
def strLower (s : String) : String :=
  ⟨s.data.map Char.toLower⟩

/-- `Location.by_name`: get location by its enum value or raise
`UnknownLocation`. -/
def Location.by_name (name : String) : Except DomainError Location :=
  if name = "cafeteria" then .ok .cafeteria
  else if name = "on my way..." then .ok .onMyWay
  else if name = "foo mine" then .ok .fooMine
  else if name = "bar mine" then .ok .barMine
  else if name = "assembly line" then .ok .assemblyLine
  else if name = "material store" then .ok .materialStore
  else if name = "robots store" then .ok .robotsStore
  else .error .unknownLocation

/-- A `Foo` material unit; `id_` stands for the `uuid` identity. -/
structure Foo where
  id_ : Nat
deriving DecidableEq, Repr

/-- A `Bar` material unit; carries its sampled `mining_time`. -/
structure Bar where
  id_ : Nat
  mining_time : Int
deriving DecidableEq, Repr

/-- `models.Material`: a Foo or a Bar instance. -/
inductive Material where
  | foo (f : Foo)
  | bar (b : Bar)
deriving DecidableEq, Repr

/-- `Foo.mining_time = Seconds(1)`; `Bar` carries its own sampled time. -/
def Material.mining_time : Material → Int
  | .foo _ => 1
  | .bar b => b.mining_time

/-- `Material.where_to_find_it`: `Foo → FOO_MINE`, `Bar → BAR_MINE`. -/
def Material.where_to_find_it : Material → Location
  | .foo _ => .fooMine
  | .bar _ => .barMine

/-- `Material.from_name`: Foo for "foo", Bar (with freshly sampled mining
time, passed as the `sampledBarTime` oracle) for "bar", otherwise raise
`UnknownMaterial`.  `freshId` stands for the fresh `uuid`. -/
def Material.from_name (material_name : String) (sampledBarTime : Int)
    (freshId : Nat) : Except DomainError Material :=
  if strLower material_name = "foo" then .ok (.foo ⟨freshId⟩)
  else if strLower material_name = "bar" then .ok (.bar ⟨freshId, sampledBarTime⟩)
  else .error .unknownMaterial

/-- `models.Foobar`: the final product (price defaults to Decimal "1.00"). -/
structure Foobar where
  foo : Foo
  bar : Bar
  price : ℚ
deriving DecidableEq, Repr

/-- `RobotId = int | Literal["Ghost"]`. -/
inductive RobotId where
  | real (n : Nat)
  | ghost
deriving DecidableEq, Repr

/-- The variant part of a `RobotState` (the concrete subclass and its own
fields; the shared `countdown`/`location` fields live in `RobotState`). -/
inductive StateVariant where
  | idle
  | haunting
  | moving (destination : Location)
  | mining (material : Material)
  | assembling (foobar : Foobar) (assembly_success_rate : ℚ)
  | sell (foobars : List Foobar)
deriving DecidableEq, Repr

/-- `models.RobotState`: base-class fields `countdown` (a Python int, so
it may go negative) and `location`, plus the subclass variant. -/
structure RobotState where
  countdown : Int
  location : Location
  variant : StateVariant
deriving DecidableEq, Repr

/-- `Idle.__init__`: countdown 0, at the given location. -/
def Idle (location : Location) : RobotState :=
  ⟨0, location, .idle⟩

/-- `Haunting.__init__`: countdown 999999999, on my way. -/
def Haunting : RobotState :=
  ⟨999999999, .onMyWay, .haunting⟩

/-- `Moving.__init__`: countdown `DURATION = 5`, on my way, remembering
the destination. -/
def Moving (destination : Location) : RobotState :=
  ⟨5, .onMyWay, .moving destination⟩

/-- `Mining.__init__`: countdown is the material's mining time, location
its source mine. -/
def Mining (material : Material) : RobotState :=
  ⟨material.mining_time, material.where_to_find_it, .mining material⟩

/-- `Assembling.__init__`: countdown 2, at the assembly line. -/
def Assembling (foobar : Foobar) (assembly_success_rate : ℚ) : RobotState :=
  ⟨2, .assemblyLine, .assembling foobar assembly_success_rate⟩

/-- `Sell.__init__`: countdown 10, at the material store. -/
def Sell (foobars : List Foobar) : RobotState :=
  ⟨10, .materialStore, .sell foobars⟩

/-- `models.Robot`: identity plus current state. -/
structure Robot where
  id_ : RobotId
  state : RobotState
deriving DecidableEq, Repr

/-- `Robot.__init__(id_, location=Location.CAFETERIA)`. -/
def Robot.init (id_ : RobotId) (location : Location) : Robot :=
  ⟨id_, Idle location⟩

/-- `Robot.ghost`: the nullable robot, haunting. -/
def Robot.ghost : Robot :=
  ⟨.ghost, Haunting⟩

/-- `Robot.__bool__`: `return self.id_ == "Ghost"` (as written in the
source). -/
def Robot.bool (r : Robot) : Bool :=
  r.id_ = RobotId.ghost

/-- `models.Stock`: the resource ledger.  `nextRobotId` is the state of
the `robots_generator` counter (`count(start=1)`) held in
`_robot_generator`. -/
structure Stock where
  robots : List Robot
  foos : List Foo
  bars : List Bar
  foobars : List Foobar
  money : ℚ
  nextRobotId : Nat
deriving DecidableEq, Repr

/-- `Stock.add_robot`: append the generator's next robot (fresh id,
default location CAFETERIA, default state Idle). -/
def Stock.add_robot (s : Stock) : Stock :=
  { s with
    robots := s.robots ++ [Robot.init (.real s.nextRobotId) .cafeteria]
    nextRobotId := s.nextRobotId + 1 }

/-- `Stock.has_enough_material`: at least one foo and one bar. -/
def Stock.has_enough_material (s : Stock) : Bool :=
  if s.foos.length < 1 then false
  else if s.bars.length < 1 then false
  else true

/-- `Stock.start_assembling`: `foo, bar = self.foos.pop(), self.bars.pop()`
(`list.pop()` takes the last element), paired into a `Foobar` with the
default price 1.00; raises `NotEnoughMaterial` without enough material. -/
def Stock.start_assembling (s : Stock) : Except DomainError (Foobar × Stock) :=
  if s.has_enough_material then
    match s.foos.getLast?, s.bars.getLast? with
    | some foo, some bar =>
        .ok (⟨foo, bar, 1⟩,
             { s with foos := s.foos.dropLast, bars := s.bars.dropLast })
    | _, _ => .error .notEnoughMaterial
  else .error .notEnoughMaterial

/-- `Stock.end_assembling_success`: append the new foobar. -/
def Stock.end_assembling_success (s : Stock) (foobar : Foobar) : Stock :=
  { s with foobars := s.foobars ++ [foobar] }

/-- `Stock.end_assembling_failure`: "we still saved a bar..." — only the
bar goes back. -/
def Stock.end_assembling_failure (s : Stock) (foobar : Foobar) : Stock :=
  { s with bars := s.bars ++ [foobar.bar] }

/-- `Stock.new_material`: append a freshly mined unit to the matching
collection. -/
def Stock.new_material (s : Stock) (material : Material) : Stock :=
  match material with
  | .foo f => { s with foos := s.foos ++ [f] }
  | .bar b => { s with bars := s.bars ++ [b] }

/-- `Stock.start_selling`: `sell_nb = min((max_nb, len(self.foobars)))`;
raise `NotEnoughMaterial` when below `min_nb`, otherwise split the list
at `sell_nb` (front slice sold). -/
def Stock.start_selling (s : Stock) (min_nb max_nb : Nat) :
    Except DomainError (List Foobar × Stock) :=
  let sell_nb := min max_nb s.foobars.length
  if sell_nb < min_nb then .error .notEnoughMaterial
  else .ok (s.foobars.take sell_nb, { s with foobars := s.foobars.drop sell_nb })

/-- `Stock.sold`: credit the sum of the batch's prices. -/
def Stock.sold (s : Stock) (foobars : List Foobar) : Stock :=
  { s with money := s.money + (foobars.map (fun fb => fb.price)).sum }

/-- `for _ in range(n): l.pop()` — drop the last element `n` times. -/
def popLastN (l : List α) : Nat → List α
  | 0 => l
  | n + 1 => (popLastN l n).dropLast

/-- `Stock.buy_robot`: check money then foos, raising `NotEnoughMaterial`,
before deducting either; then deduct both and `add_robot`. -/
def Stock.buy_robot (s : Stock) (required_money : ℚ) (required_foos : Nat) :
    Except DomainError Stock :=
  if required_money > s.money then .error .notEnoughMaterial
  else if required_foos > s.foos.length then .error .notEnoughMaterial
  else .ok (Stock.add_robot
    { s with money := s.money - required_money
             foos := popLastN s.foos required_foos })

/-- `Stock.get_robot`: first robot with the given id, else the ghost
sentinel (lookup never raises). -/
def Stock.get_robot (s : Stock) (robot_id : Nat) : Robot :=
  match s.robots.find? (fun r => r.id_ = RobotId.real robot_id) with
  | some r => r
  | none => Robot.ghost

/-- `RobotState.move`: only `Idle` overrides the base method (which raises
`InvalidTransition`); `Idle.move` produces `Moving(destination)`. -/
def RobotState.move (s : RobotState) (destination : Location) :
    Except DomainError RobotState :=
  match s.variant with
  | .idle => .ok (Moving destination)
  | _ => .error .invalidTransition

/-- `RobotState.mine`: the base method raises `InvalidTransition` leaving
the state alone.  `Idle.mine` first assigns `self.robot.state =
Mining(...)` when the robot stands at the material's source, and then
falls through to an unconditional `raise InvalidTransition` (there is no
`return`/`else` in the source), so the mutated state and a raised error
are BOTH produced. -/
def RobotState.mine (s : RobotState) (material : Material) :
    RobotState × Option DomainError :=
  match s.variant with
  | .idle =>
      ((if s.location = material.where_to_find_it then Mining material else s),
       some .invalidTransition)
  | _ => (s, some .invalidTransition)

/-- `Idle.assemble`: requires the assembly line, reserves a foo/bar pair
via `start_assembling` (its `NotEnoughMaterial` re-raised as
`InvalidTransition`), and becomes `Assembling`.  Other states raise. -/
def RobotState.assemble (s : RobotState) (stock : Stock)
    (assembly_success_rate : ℚ) : Except DomainError (RobotState × Stock) :=
  match s.variant with
  | .idle =>
      if s.location = Location.assemblyLine then
        match stock.start_assembling with
        | .error _ => .error .invalidTransition
        | .ok (foobar, stock') =>
            .ok (Assembling foobar assembly_success_rate, stock')
      else .error .invalidTransition
  | _ => .error .invalidTransition

/-- `Idle.sell`: requires the material store, reserves a batch via
`start_selling` (its error propagates as raised), becomes `Sell`. -/
def RobotState.sell (s : RobotState) (stock : Stock) (min_nb max_nb : Nat) :
    Except DomainError (RobotState × Stock) :=
  match s.variant with
  | .idle =>
      if s.location = Location.materialStore then
        match stock.start_selling min_nb max_nb with
        | .error e => .error e
        | .ok (foobars, stock') => .ok (Sell foobars, stock')
      else .error .invalidTransition
  | _ => .error .invalidTransition

/-- `Idle.buy`: requires the robots store, delegates to `stock.buy_robot`;
the buying robot itself stays Idle. -/
def RobotState.buy (s : RobotState) (stock : Stock) (required_money : ℚ)
    (required_foos : Nat) : Except DomainError Stock :=
  match s.variant with
  | .idle =>
      if s.location = Location.robotsStore then
        stock.buy_robot required_money required_foos
      else .error .invalidTransition
  | _ => .error .invalidTransition

/-- `RobotState.terminate`: the base method does nothing; `Moving`,
`Mining`, `Assembling` and `Sell` override it with their completion
effect and become Idle.  `roll` is the `random.random()` sample the
assembly outcome compares against its success rate. -/
def RobotState.terminate (s : RobotState) (stock : Stock) (roll : ℚ) :
    RobotState × Stock :=
  match s.variant with
  | .idle => (s, stock)
  | .haunting => (s, stock)
  | .moving destination => (Idle destination, stock)
  | .mining material => (Idle s.location, stock.new_material material)
  | .assembling foobar rate =>
      if roll ≤ rate then (Idle s.location, stock.end_assembling_success foobar)
      else (Idle s.location, stock.end_assembling_failure foobar)
  | .sell foobars => (Idle s.location, stock.sold foobars)

/-- `RobotState.run_round`: decrement the countdown; exactly when it hits
0, fire `terminate`. -/
def RobotState.run_round (s : RobotState) (stock : Stock) (roll : ℚ) :
    RobotState × Stock :=
  let s' : RobotState := { s with countdown := s.countdown - 1 }
  if s'.countdown = 0 then s'.terminate stock roll else (s', stock)

/-- `Robot.run_round` delegates to the state. -/
def Robot.run_round (r : Robot) (stock : Stock) (roll : ℚ) : Robot × Stock :=
  let res := r.state.run_round stock roll
  ({ r with state := res.1 }, res.2)

/-- `settings.Settings`: the configuration bundle. -/
structure Settings where
  initial_robots_nb : Nat
  assembly_success_rate : ℚ
  mining_bar_range_time : Int × Int
  foobars_selling_range : Nat × Nat
  robot_cost : Nat × Nat
  limit_of_robots_for_game_over : Nat
deriving DecidableEq, Repr

/-- The default `Settings()` values. -/
def defaultSettings : Settings :=
  ⟨2, 3 / 5, (1, 2), (1, 5), (3, 6), 30⟩

/-- `commands.py`: the closed command vocabulary. -/
inductive Command where
  | moveRobot (robot_id : Nat) (destination : String)
  | mineCmd (robot_id : Nat) (material : String)
  | assembleCmd (robot_id : Nat)
  | wait (seconds : Nat)
  | sellFoobars (robot_id : Nat)
  | buyRobot (robot_id : Nat)
deriving DecidableEq, Repr

/-- `models.RoboticFactory`. -/
structure RoboticFactory where
  stock : Stock
  seconds_left : Int
  settings : Settings
deriving DecidableEq, Repr

/-- The sources of randomness one `execute` call may consume: the bar
mining-time sample, the fresh material id, and per-round/per-robot
assembly rolls. -/
structure Oracle where
  sampledBarTime : Int
  freshId : Nat
  rolls : Nat → Nat → ℚ

/-- Replace the state of the first robot carrying `robot_id` (the object
`get_robot` returned and the Python code mutated in place); a miss (the
ghost) touches nothing in the roster. -/
def updateFirst (robots : List Robot) (robot_id : Nat) (st : RobotState) :
    List Robot :=
  match robots with
  | [] => []
  | r :: rest =>
      if r.id_ = RobotId.real robot_id then { r with state := st } :: rest
      else r :: updateFirst rest robot_id st

/-- `RoboticFactory.move`: resolve the location name (lower-cased), the
robot, and delegate to the state's `move`. -/
def RoboticFactory.move (f : RoboticFactory) (robot_id : Nat)
    (destination : String) : Except DomainError RoboticFactory :=
  match Location.by_name (strLower destination) with
  | .error e => .error e
  | .ok dest =>
      let robot := f.stock.get_robot robot_id
      match robot.state.move dest with
      | .error e => .error e
      | .ok st' =>
          .ok { f with stock :=
            { f.stock with robots := updateFirst f.stock.robots robot_id st' } }

/-- `RoboticFactory.mine`: resolve the robot then the material (which may
raise `UnknownMaterial` first), then call the state's `mine`; whatever
state assignment `Idle.mine` performed before raising persists. -/
def RoboticFactory.mine (f : RoboticFactory) (robot_id : Nat)
    (material : String) (oracle : Oracle) : RoboticFactory × Option DomainError :=
  let robot := f.stock.get_robot robot_id
  match Material.from_name material oracle.sampledBarTime oracle.freshId with
  | .error e => (f, some e)
  | .ok mat =>
      let res := robot.state.mine mat
      ({ f with stock :=
         { f.stock with robots := updateFirst f.stock.robots robot_id res.1 } },
       res.2)

/-- `RoboticFactory.assemble`. -/
def RoboticFactory.assemble (f : RoboticFactory) (robot_id : Nat) :
    Except DomainError RoboticFactory :=
  let robot := f.stock.get_robot robot_id
  match robot.state.assemble f.stock f.settings.assembly_success_rate with
  | .error e => .error e
  | .ok (st', stock') =>
      .ok { f with stock :=
        { stock' with robots := updateFirst stock'.robots robot_id st' } }

/-- `RoboticFactory.sell` with the configured selling range. -/
def RoboticFactory.sell (f : RoboticFactory) (robot_id : Nat) :
    Except DomainError RoboticFactory :=
  let robot := f.stock.get_robot robot_id
  match robot.state.sell f.stock f.settings.foobars_selling_range.1
      f.settings.foobars_selling_range.2 with
  | .error e => .error e
  | .ok (st', stock') =>
      .ok { f with stock :=
        { stock' with robots := updateFirst stock'.robots robot_id st' } }

/-- `RoboticFactory.buy_robot` with the configured cost. -/
def RoboticFactory.buy_robot (f : RoboticFactory) (robot_id : Nat) :
    Except DomainError RoboticFactory :=
  let robot := f.stock.get_robot robot_id
  match robot.state.buy f.stock (f.settings.robot_cost.1 : ℚ)
      f.settings.robot_cost.2 with
  | .error e => .error e
  | .ok stock' => .ok { f with stock := stock' }

/-- Run `robot.run_round()` over a roster slice in order, threading the
stock; `i` indexes the per-robot assembly rolls. -/
def runRobots (robots : List Robot) (stock : Stock) (rolls : Nat → ℚ)
    (i : Nat) : List Robot × Stock :=
  match robots with
  | [] => ([], stock)
  | r :: rest =>
      let res := r.run_round stock (rolls i)
      let res' := runRobots rest res.2 rolls (i + 1)
      (res.1 :: res'.1, res'.2)

/-- `RoboticFactory.run_round`: every robot runs a round in roster order,
then `seconds_left` is incremented.  No robot-count check is performed
and nothing is raised. -/
def RoboticFactory.run_round (f : RoboticFactory) (rolls : Nat → ℚ) :
    RoboticFactory :=
  let res := runRobots f.stock.robots f.stock rolls 0
  { f with stock := { res.2 with robots := res.1 },
           seconds_left := f.seconds_left + 1 }

/-- `RoboticFactory.wait`: `for _ in range(seconds): self.run_round()`;
`rolls j i` is the assembly roll of robot index `i` in round `j`. -/
def RoboticFactory.wait (f : RoboticFactory) (seconds : Nat)
    (rolls : Nat → Nat → ℚ) : RoboticFactory :=
  match seconds with
  | 0 => f
  | k + 1 => (f.run_round (rolls 0)).wait k (fun j => rolls (j + 1))

/-- `handlers._handler`: route the command; returns the factory as it
stands when control returns (mutations performed before a raise persist)
together with the raised domain error, if any. -/
def handler (c : Command) (f : RoboticFactory) (oracle : Oracle) :
    RoboticFactory × Option DomainError :=
  match c with
  | .moveRobot robot_id destination =>
      match f.move robot_id destination with
      | .error e => (f, some e)
      | .ok f' => (f', none)
  | .mineCmd robot_id material => f.mine robot_id material oracle
  | .assembleCmd robot_id =>
      match f.assemble robot_id with
      | .error e => (f, some e)
      | .ok f' => (f', none)
  | .wait seconds => (f.wait seconds oracle.rolls, none)
  | .sellFoobars robot_id =>
      match f.sell robot_id with
      | .error e => (f, some e)
      | .ok f' => (f', none)
  | .buyRobot robot_id =>
      match f.buy_robot robot_id with
      | .error e => (f, some e)
      | .ok f' => (f', none)

/-- `handlers.execute = ignore_domain_errors(_handler)`: the domain error
is logged and dropped, never re-raised; the factory is whatever the
handler left behind. -/
def execute (c : Command) (f : RoboticFactory) (oracle : Oracle) :
    RoboticFactory :=
  (handler c f oracle).1

/-! Helper lemmas and concrete fixtures. -/

/-- Popping the last element `n` times from a list of length at least `n`
shortens it by exactly `n`. -/
theorem popLastN_length (n : Nat) (l : List α) (h : n ≤ l.length) :
    (popLastN l n).length = l.length - n := by
  induction n with
  | zero => rfl
  | succ k ih =>
      have hk : k ≤ l.length := Nat.le_of_succ_le h
      unfold popLastN
      rw [List.length_dropLast, ih hk]
      omega

/-- `has_enough_material` holds exactly when both collections are
nonempty. -/
theorem has_enough_material_of_ne_nil (s : Stock) (hf : s.foos ≠ [])
    (hb : s.bars ≠ []) : s.has_enough_material = true := by
  unfold Stock.has_enough_material
  have h1 : ¬ s.foos.length < 1 := by
    have := List.length_pos.2 hf
    omega
  have h2 : ¬ s.bars.length < 1 := by
    have := List.length_pos.2 hb
    omega
  rw [if_neg h1, if_neg h2]

/-- `start_assembling` on a stock with material: pops the LAST foo and
the LAST bar and pairs them at price 1. -/
theorem start_assembling_ok (s : Stock) (hf : s.foos ≠ []) (hb : s.bars ≠ []) :
    Stock.start_assembling s
      = .ok (⟨s.foos.getLast hf, s.bars.getLast hb, 1⟩,
             { s with foos := s.foos.dropLast, bars := s.bars.dropLast }) := by
  unfold Stock.start_assembling
  rw [has_enough_material_of_ne_nil s hf hb]
  rw [List.getLast?_eq_getLast s.foos hf, List.getLast?_eq_getLast s.bars hb]
  rfl

/-- `buy_robot` when both thresholds are met: deduct money, pop the foos,
append the generated robot. -/
theorem buy_robot_ok (s : Stock) (m : ℚ) (n : Nat) (h1 : m ≤ s.money)
    (h2 : n ≤ s.foos.length) :
    Stock.buy_robot s m n
      = .ok (Stock.add_robot
          { s with money := s.money - m, foos := popLastN s.foos n }) := by
  unfold Stock.buy_robot
  rw [if_neg (not_lt.mpr h1), if_neg (not_lt.mpr h2)]

/-- `start_selling` when the batch is large enough: split the foobar list
at `sell_nb`, front slice removed. -/
theorem start_selling_ok (s : Stock) (min_nb max_nb : Nat)
    (h : min_nb ≤ min max_nb s.foobars.length) :
    Stock.start_selling s min_nb max_nb
      = .ok (s.foobars.take (min max_nb s.foobars.length),
             { s with foobars := s.foobars.drop (min max_nb s.foobars.length) }) := by
  unfold Stock.start_selling
  rw [if_neg (not_lt.mpr h)]

/-- A deterministic oracle (bar time 1, material id 0, all rolls 0) for
concrete executions. -/
def oracle0 : Oracle := ⟨1, 0, fun _ _ => 0⟩

/-- The empty stock `Stock([])`. -/
def emptyStock : Stock := ⟨[], [], [], [], 0, 1⟩

/-- A concrete Foo material (id 0). -/
def matFoo : Material := .foo ⟨0⟩

/-- A factory holding one robot, id 1, Idle at the foo mine. -/
def mineFactory : RoboticFactory :=
  ⟨{ emptyStock with robots := [Robot.init (.real 1) .fooMine] }, 0,
   defaultSettings⟩

/-- A stock holding one real robot with id 1. -/
def rosterStock : Stock :=
  { emptyStock with robots := [Robot.init (.real 1) .cafeteria] }

/-- The roster of `test_game_is_over_when_30_robots_is_in`: 30 robots,
ids 0..29, all Idle, while `limit_of_robots_for_game_over = 30`. -/
def endOfGameFactory : RoboticFactory :=
  ⟨{ emptyStock with
      robots := (List.range 30).map (fun i => Robot.init (.real i) .cafeteria) },
   0, defaultSettings⟩

/-- Stock with no money and no foos. -/
def stockPoor : Stock := ⟨[], [], [], [], 0, 1⟩

/-- Stock with money 10 but only 2 foos. -/
def stockFooShort : Stock := ⟨[], [⟨0⟩, ⟨1⟩], [], [], 10, 1⟩

/-- Stock with 10 foos but only money 2. -/
def stockMoneyShort : Stock :=
  ⟨[], [⟨0⟩, ⟨1⟩, ⟨2⟩, ⟨3⟩, ⟨4⟩, ⟨5⟩, ⟨6⟩, ⟨7⟩, ⟨8⟩, ⟨9⟩], [], [], 2, 1⟩

/-- Stock with money 10 and 6 foos: `buy_robot 3 6` must succeed. -/
def stockRich : Stock := ⟨[], [⟨0⟩, ⟨1⟩, ⟨2⟩, ⟨3⟩, ⟨4⟩, ⟨5⟩], [], [], 10, 1⟩

/-- Ten foobars in stock (prices all 1). -/
def stockTenFoobars : Stock :=
  ⟨[], [], [],
   [⟨⟨0⟩, ⟨0, 1⟩, 1⟩, ⟨⟨1⟩, ⟨1, 1⟩, 1⟩, ⟨⟨2⟩, ⟨2, 1⟩, 1⟩, ⟨⟨3⟩, ⟨3, 1⟩, 1⟩,
    ⟨⟨4⟩, ⟨4, 1⟩, 1⟩, ⟨⟨5⟩, ⟨5, 1⟩, 1⟩, ⟨⟨6⟩, ⟨6, 1⟩, 1⟩, ⟨⟨7⟩, ⟨7, 1⟩, 1⟩,
    ⟨⟨8⟩, ⟨8, 1⟩, 1⟩, ⟨⟨9⟩, ⟨9, 1⟩, 1⟩], 0, 1⟩

/-- Two foos and two bars in stock, to watch which units assembling
takes. -/
def stockTwoEach : Stock :=
  ⟨[], [⟨0⟩, ⟨1⟩], [⟨0, 1⟩, ⟨1, 1⟩], [], 0, 1⟩

/-- Stock with six foos and money 10 but an empty roster, to watch where
a purchased robot appears. -/
def stockBuyOne : Stock := ⟨[], [⟨0⟩, ⟨1⟩, ⟨2⟩, ⟨3⟩, ⟨4⟩, ⟨5⟩], [], [], 10, 1⟩

/-! The claims. -/

/-- Claim C1: the spec says `wait` raises GameOver after the first full
round in which the roster reaches `limit_of_robots_for_game_over`.  The
embedded `run_round`/`wait` (faithful to `models.py`, which contains no
robot-count check and no `raise GameOver` anywhere) completes the round
normally on a 30-robot factory — the exact scenario of the repository's
own `test_game_is_over_when_30_robots_is_in` — returning a factory
instead of signalling: the roster stands at the configured limit and the
round counter advanced, with no error channel involved. -/
theorem c1_wait_completes_at_robot_limit :
    (execute (.wait 1) endOfGameFactory oracle0).stock.robots.length
        = defaultSettings.limit_of_robots_for_game_over
      ∧ (execute (.wait 1) endOfGameFactory oracle0).seconds_left = 1
      ∧ endOfGameFactory.settings.limit_of_robots_for_game_over = 30 := by
  decide

/-- Claim C2: the spec says `mine` from Idle at the material's source
succeeds with no error; the embedded `Idle.mine` (faithful to the missing
`return` in `models.py`) assigns the Mining state AND still raises
`InvalidTransition` on that very path, while from a wrong location it
raises without transitioning. -/
theorem c2_mine_raises_even_at_source :
    RobotState.mine (Idle .fooMine) matFoo
        = (Mining matFoo, some DomainError.invalidTransition)
      ∧ RobotState.mine (Idle .cafeteria) matFoo
        = (Idle .cafeteria, some DomainError.invalidTransition) := by
  decide

/-- Claim C3: the spec says a routing that raises a recoverable domain
error leaves the whole state untouched after `execute` catches it.  On
`Mine(robot 1, "foo")` against a robot Idle at the foo mine the handler
does report a caught `InvalidTransition` (nothing propagates), yet the
executed factory differs from the original: robot 1 is now Mining. -/
theorem c3_execute_catches_but_state_changed :
    (handler (.mineCmd 1 "foo") mineFactory oracle0).2
        = some DomainError.invalidTransition
      ∧ (mineFactory.stock.get_robot 1).state = Idle .fooMine
      ∧ ((execute (.mineCmd 1 "foo") mineFactory oracle0).stock.get_robot 1).state
        = Mining matFoo
      ∧ execute (.mineCmd 1 "foo") mineFactory oracle0 ≠ mineFactory := by
  decide

/-- Claim C4: lookup misses do return the ghost sentinel without raising,
but `Robot.__bool__` (faithfully `id_ == "Ghost"`) makes the ghost
TRUTHY and every real robot FALSY — the exact inverse of the claimed
truthiness contract. -/
theorem c4_ghost_truthy_real_falsy :
    (rosterStock.get_robot 99).id_ = RobotId.ghost
      ∧ (rosterStock.get_robot 99).bool = true
      ∧ (rosterStock.get_robot 1).id_ = RobotId.real 1
      ∧ (rosterStock.get_robot 1).bool = false := by
  decide

/-- Claim C5: `buy_robot` either (both thresholds met) deducts exactly
the required money and foos and appends exactly one robot — leaving bars
and foobars alone — or raises `NotEnoughMaterial` performing no
deduction at all. -/
theorem c5_buy_robot_atomic (s : Stock) (m : ℚ) (n : Nat) :
    (m ≤ s.money → n ≤ s.foos.length →
      ∀ s', Stock.buy_robot s m n = Except.ok s' →
        s'.money = s.money - m
          ∧ s'.foos.length = s.foos.length - n
          ∧ s'.robots.length = s.robots.length + 1
          ∧ s'.bars = s.bars ∧ s'.foobars = s.foobars)
      ∧ (s.money < m ∨ s.foos.length < n →
        Stock.buy_robot s m n = .error DomainError.notEnoughMaterial) := by
  constructor
  · intro h1 h2 s' hs'
    rw [buy_robot_ok s m n h1 h2] at hs'
    injection hs' with h
    subst h
    refine ⟨rfl, ?_, ?_, rfl, rfl⟩
    · simpa [Stock.add_robot] using popLastN_length n s.foos h2
    · simp [Stock.add_robot]
  · intro h
    unfold Stock.buy_robot
    by_cases hm : m > s.money
    · rw [if_pos hm]
    · rw [if_neg hm]
      have hn : n > s.foos.length := by
        cases h with
        | inl hlt => exact absurd hlt hm
        | inr hlt => exact hlt
      rw [if_pos hn]

/-- Witness for C5: with thresholds (3, 6), the stocks (money 0, foos 0),
(10, 2) and (2, 10) all fail with `NotEnoughMaterial`, and (10, 6)
succeeds deducting 3 money and 6 foos and adding one robot. -/
theorem c5_buy_robot_atomic_witness :
    Stock.buy_robot stockPoor 3 6 = .error DomainError.notEnoughMaterial
      ∧ Stock.buy_robot stockFooShort 3 6 = .error DomainError.notEnoughMaterial
      ∧ Stock.buy_robot stockMoneyShort 3 6 = .error DomainError.notEnoughMaterial
      ∧ ∀ s', Stock.buy_robot stockRich 3 6 = Except.ok s' →
          s'.money = stockRich.money - 3
            ∧ s'.foos.length = stockRich.foos.length - 6
            ∧ s'.robots.length = stockRich.robots.length + 1
            ∧ s'.bars = stockRich.bars ∧ s'.foobars = stockRich.foobars :=
  ⟨(c5_buy_robot_atomic stockPoor 3 6).2 (Or.inl (by decide)),
   (c5_buy_robot_atomic stockFooShort 3 6).2 (Or.inr (by decide)),
   (c5_buy_robot_atomic stockMoneyShort 3 6).2 (Or.inl (by decide)),
   (c5_buy_robot_atomic stockRich 3 6).1 (by decide) (by decide)⟩

/-- Claim C6: `start_selling` removes exactly `min(max_nb, available)`
foobars from the FRONT of the collection and returns them when that
count reaches `min_nb`, and otherwise raises `NotEnoughMaterial` (the
error constructor carries no stock: nothing is removed). -/
theorem c6_start_selling_front_batch (s : Stock) (min_nb max_nb : Nat) :
    (min_nb ≤ min max_nb s.foobars.length →
      Stock.start_selling s min_nb max_nb
          = .ok (s.foobars.take (min max_nb s.foobars.length),
                 { s with foobars := s.foobars.drop (min max_nb s.foobars.length) })
        ∧ (s.foobars.take (min max_nb s.foobars.length)).length
          = min max_nb s.foobars.length
        ∧ (s.foobars.drop (min max_nb s.foobars.length)).length
          = s.foobars.length - min max_nb s.foobars.length)
      ∧ (min max_nb s.foobars.length < min_nb →
        Stock.start_selling s min_nb max_nb
          = .error DomainError.notEnoughMaterial) := by
  constructor
  · intro h
    refine ⟨start_selling_ok s min_nb max_nb h, ?_, List.length_drop _ _⟩
    rw [List.length_take]
    omega
  · intro h
    unfold Stock.start_selling
    rw [if_pos h]

/-- Witness for C6: against 10 foobars, `start_selling 1 5` removes
exactly the first 5 and leaves 5; against 0 foobars it raises
`NotEnoughMaterial`. -/
theorem c6_start_selling_front_batch_witness :
    (Stock.start_selling stockTenFoobars 1 5
        = .ok (stockTenFoobars.foobars.take (min 5 stockTenFoobars.foobars.length),
               { stockTenFoobars with
                  foobars :=
                    stockTenFoobars.foobars.drop
                      (min 5 stockTenFoobars.foobars.length) })
      ∧ (stockTenFoobars.foobars.take (min 5 stockTenFoobars.foobars.length)).length
        = min 5 stockTenFoobars.foobars.length
      ∧ (stockTenFoobars.foobars.drop (min 5 stockTenFoobars.foobars.length)).length
        = stockTenFoobars.foobars.length - min 5 stockTenFoobars.foobars.length)
      ∧ Stock.start_selling emptyStock 1 5
        = .error DomainError.notEnoughMaterial :=
  ⟨(c6_start_selling_front_batch stockTenFoobars 1 5).1 (by decide),
   (c6_start_selling_front_batch emptyStock 1 5).2 (by decide)⟩

/-- Claim C7: with at least one foo and one bar, `start_assembling`
removes exactly one of each (synchronously, before the assembly
resolves), and `end_assembling_failure` on the reserved pair appends
exactly the reserved bar back, never the foo. -/
theorem c7_assembling_reserves_failure_returns_bar (s : Stock)
    (hf : s.foos ≠ []) (hb : s.bars ≠ []) :
    ∃ fb s', Stock.start_assembling s = .ok (fb, s')
      ∧ s'.foos.length + 1 = s.foos.length
      ∧ s'.bars.length + 1 = s.bars.length
      ∧ s'.foobars = s.foobars ∧ s'.money = s.money ∧ s'.robots = s.robots
      ∧ (Stock.end_assembling_failure s' fb).bars = s'.bars ++ [fb.bar]
      ∧ (Stock.end_assembling_failure s' fb).foos = s'.foos
      ∧ (Stock.end_assembling_failure s' fb).foobars = s'.foobars := by
  refine ⟨⟨s.foos.getLast hf, s.bars.getLast hb, 1⟩,
    { s with foos := s.foos.dropLast, bars := s.bars.dropLast },
    start_assembling_ok s hf hb, ?_, ?_, rfl, rfl, rfl, rfl, rfl, rfl⟩
  · have := List.length_pos.2 hf
    rw [List.length_dropLast]
    omega
  · have := List.length_pos.2 hb
    rw [List.length_dropLast]
    omega

/-- Witness for C7 at a stock of two foos and two bars. -/
theorem c7_assembling_reserves_failure_returns_bar_witness :
    ∃ fb s', Stock.start_assembling stockTwoEach = .ok (fb, s')
      ∧ s'.foos.length + 1 = stockTwoEach.foos.length
      ∧ s'.bars.length + 1 = stockTwoEach.bars.length
      ∧ s'.foobars = stockTwoEach.foobars ∧ s'.money = stockTwoEach.money
      ∧ s'.robots = stockTwoEach.robots
      ∧ (Stock.end_assembling_failure s' fb).bars = s'.bars ++ [fb.bar]
      ∧ (Stock.end_assembling_failure s' fb).foos = s'.foos
      ∧ (Stock.end_assembling_failure s' fb).foobars = s'.foobars :=
  c7_assembling_reserves_failure_returns_bar stockTwoEach (by decide) (by decide)

/-- Claim C8 counterexample: a successful `buy_robot` (money 10, six
foos, cost 3/6) appends a robot standing at CAFETERIA — `Robot.__init__`'s
default — not at the robots store as claimed. -/
theorem c8_counterexample :
    (Stock.buy_robot stockBuyOne 3 6).toOption.map
        (fun s' => s'.robots.map (fun r => r.state))
      = some [Idle Location.cafeteria]
      ∧ Location.cafeteria ≠ Location.robotsStore := by
  decide

/-- Claim C8 amended: every robot appended by a successful `buy_robot`
is in the Idle state and located at CAFETERIA (the
`Robot.__init__` default used by `robots_generator`). -/
theorem c8_bought_robot_idle_at_cafeteria (s : Stock) (m : ℚ) (n : Nat)
    (h1 : m ≤ s.money) (h2 : n ≤ s.foos.length) :
    ∃ s', Stock.buy_robot s m n = Except.ok s'
      ∧ s'.robots.getLast? = some (Robot.init (.real s.nextRobotId) .cafeteria)
      ∧ (Robot.init (.real s.nextRobotId) .cafeteria).state
        = Idle Location.cafeteria := by
  refine ⟨_, buy_robot_ok s m n h1 h2, ?_, rfl⟩
  simp [Stock.add_robot]

/-- Witness for the amended C8. -/
theorem c8_bought_robot_idle_at_cafeteria_witness :
    ∃ s', Stock.buy_robot stockRich 3 6 = Except.ok s'
      ∧ s'.robots.getLast?
        = some (Robot.init (.real stockRich.nextRobotId) .cafeteria)
      ∧ (Robot.init (.real stockRich.nextRobotId) .cafeteria).state
        = Idle Location.cafeteria :=
  c8_bought_robot_idle_at_cafeteria stockRich 3 6 (by decide) (by decide)

/-- Claim C9 counterexample: after a single `run_round`, an Idle robot's
countdown is −1, not 0 — the base-class decrement applies to Idle too. -/
theorem c9_counterexample :
    (RobotState.run_round (Idle .cafeteria) emptyStock 0).1.countdown = -1
      ∧ ¬ (RobotState.run_round (Idle .cafeteria) emptyStock 0).1.countdown
          = 0 := by
  decide

/-- Claim C9 amended: an Idle state is created with countdown 0, and
`run_round` preserves the Idle variant, its location and the stock
(Idle's `terminate` is the base no-op), but decrements the stored
countdown by one each round instead of keeping it at 0. -/
theorem c9_idle_run_round (location : Location) (c : Int) (stock : Stock)
    (roll : ℚ) :
    (Idle location).countdown = 0
      ∧ RobotState.run_round ⟨c, location, .idle⟩ stock roll
        = (⟨c - 1, location, .idle⟩, stock) := by
  refine ⟨rfl, ?_⟩
  unfold RobotState.run_round RobotState.terminate
  by_cases h : c - 1 = 0 <;> simp [h]

/-- Claim C10: `start_assembling` removes the LAST foo and the LAST bar
(the most recently appended, `list.pop()`), while `start_selling` takes
its batch from the FRONT of the foobar collection. -/
theorem c10_assemble_pops_back_sell_takes_front (s : Stock)
    (hf : s.foos ≠ []) (hb : s.bars ≠ []) :
    Stock.start_assembling s
        = .ok (⟨s.foos.getLast hf, s.bars.getLast hb, 1⟩,
               { s with foos := s.foos.dropLast, bars := s.bars.dropLast })
      ∧ ∀ min_nb max_nb, min_nb ≤ min max_nb s.foobars.length →
          Stock.start_selling s min_nb max_nb
            = .ok (s.foobars.take (min max_nb s.foobars.length),
                   { s with
                      foobars :=
                        s.foobars.drop (min max_nb s.foobars.length) }) := by
  exact ⟨start_assembling_ok s hf hb,
    fun min_nb max_nb h => start_selling_ok s min_nb max_nb h⟩

/-- Witness for C10: on two foos `[f0, f1]` and two bars `[b0, b1]`,
assembling reserves `f1` and `b1` (the back elements). -/
theorem c10_assemble_pops_back_sell_takes_front_witness :
    Stock.start_assembling stockTwoEach
        = .ok (⟨stockTwoEach.foos.getLast (by decide),
                stockTwoEach.bars.getLast (by decide), 1⟩,
               { stockTwoEach with
                  foos := stockTwoEach.foos.dropLast
                  bars := stockTwoEach.bars.dropLast })
      ∧ ∀ min_nb max_nb,
          min_nb ≤ min max_nb stockTwoEach.foobars.length →
          Stock.start_selling stockTwoEach min_nb max_nb
            = .ok (stockTwoEach.foobars.take
                     (min max_nb stockTwoEach.foobars.length),
                   { stockTwoEach with
                      foobars :=
                        stockTwoEach.foobars.drop
                          (min max_nb stockTwoEach.foobars.length) }) :=
  c10_assemble_pops_back_sell_takes_front stockTwoEach (by decide) (by decide)

end Robotsline
